import Mathlib

/-!
Verification of the window-identity reconciliation layer of the
`postnote` sticky-notes applet (Go sources under `stickynotes/` and the
`window_calls` D-Bus client).  The Go code is shallowly embedded: pure
logic becomes Lean functions, the mutable globals of the D-Bus client and
the per-note GUI state become explicit state records, and the external
D-Bus service / GTK toolkit are oracles passed as arguments.  Go `int`
becomes `Int` (positions may be negative), the `uint32` window handles
become `Nat` (no arithmetic is ever performed on them, only equality
tests), and fallible Go calls return `Option` / explicit result types.
-/

namespace Postnote

/-- Go helper `absInt` from `stickynotes/gui.go`. -/
def absInt (x : Int) : Int :=
  if x < 0 then -x else x

/-- A window as reported by the window-calls `List` D-Bus method
(`WindowInfo` in the Go code). -/
structure WindowInfo where
  ID : Nat
  PID : Int
  X : Int
  Y : Int
  Width : Int
  Height : Int
  WMClass : String
  Title : String
  deriving Repr, DecidableEq

/-- A window as reported by the window-calls `Details` D-Bus method
(`WindowDetails` in the Go code). -/
structure WindowDetails where
  ID : Nat
  PID : Int
  X : Int
  Y : Int
  Width : Int
  Height : Int
  WMClass : String
  Title : String
  Maximized : Int
  Focus : Bool
  deriving Repr, DecidableEq

/-- Go `strings.Contains(s, pat)`: `pat` occurs as a contiguous substring
of `s` (modelled on the character list). -/
def strContains (s pat : String) : Bool :=
  s.toList.tails.any (fun t => pat.toList.isPrefixOf t)

/-- The filtering loop of `GetCurrentProcessWindows` (window-calls client):
keep a window when its PID matches AND its title contains "Sticky Notes",
or (fallback branch) when just the PID matches. -/
def currentProcessFilter (currentPID : Int) : List WindowInfo → List WindowInfo
  | [] => []
  | win :: rest =>
    let pidMatch := win.PID == currentPID
    let titleMatch := strContains win.Title "Sticky Notes"
    if pidMatch && titleMatch then win :: currentProcessFilter currentPID rest
    else if pidMatch then win :: currentProcessFilter currentPID rest
    else currentProcessFilter currentPID rest

/-! ## The window-calls D-Bus client state (error taxonomy)

The Go client keeps the package-level globals `windowCallsAvailable` and
`windowCallsChecked`; `IsWindowCallsAvailable()` is the conjunction of
"running on Wayland" with the availability flag.  A D-Bus call can
succeed, fail with a named D-Bus error, fail to connect, or return
unparsable JSON; these outcomes are the oracle fed to each embedded call.
-/

structure WCState where
  isWaylandSession : Bool
  windowCallsAvailable : Bool
  windowCallsChecked : Bool
  deriving Repr, DecidableEq

/-- `IsWindowCallsAvailable()` in the Go code. -/
def IsWindowCallsAvailable (s : WCState) : Bool :=
  s.isWaylandSession && s.windowCallsAvailable

def serviceUnknownName : String := "org.freedesktop.DBus.Error.ServiceUnknown"
def unknownMethodName : String := "org.freedesktop.DBus.Error.UnknownMethod"
def jsErrorName : String := "org.gnome.gjs.JSError.Error"

/-- Outcome of the raw D-Bus `List` round-trip (connection, call, JSON
parse) as seen by `ListWindows`. -/
inductive ListCallOutcome where
  | ok (ws : List WindowInfo)
  | dbusErr (name : String)
  | connErr
  | parseErr
  deriving Repr, DecidableEq

/-- Outcome of the raw D-Bus `Details` round-trip as seen by
`GetWindowDetails`. -/
inductive DetailsCallOutcome where
  | ok (d : WindowDetails)
  | dbusErr (name : String)
  | connErr
  | parseErr
  deriving Repr, DecidableEq

/-- A Go `(value, err)` return: `ok none` models `(nil, nil)`,
`ok (some a)` models `(a, nil)`, and `error` models a non-nil error. -/
inductive WCResult (α : Type) where
  | ok (a : Option α)
  | error
  deriving Repr, DecidableEq

/-- `ListWindows` from the window-calls client: short-circuits to
`(nil, nil)` when the extension is unavailable; a
ServiceUnknown/UnknownMethod D-Bus error marks the extension unavailable
and returns `(nil, nil)`; other failures return an error. -/
def ListWindows (s : WCState) (call : ListCallOutcome) :
    WCState × WCResult (List WindowInfo) :=
  if !IsWindowCallsAvailable s then (s, .ok none)
  else
    match call with
    | .connErr => (s, .error)
    | .dbusErr name =>
      if name == serviceUnknownName || name == unknownMethodName then
        ({ s with windowCallsAvailable := false, windowCallsChecked := true }, .ok none)
      else (s, .error)
    | .parseErr => (s, .error)
    | .ok ws => (s, .ok (some ws))

/-- `GetWindowDetails` from the window-calls client: like `ListWindows`,
but a per-window JavaScript error (`org.gnome.gjs.JSError.Error`) is
swallowed as `(nil, nil)` without touching the availability flag. -/
def GetWindowDetails (s : WCState) (call : DetailsCallOutcome) :
    WCState × WCResult WindowDetails :=
  if !IsWindowCallsAvailable s then (s, .ok none)
  else
    match call with
    | .connErr => (s, .error)
    | .dbusErr name =>
      if name == jsErrorName then (s, .ok none)
      else if name == serviceUnknownName || name == unknownMethodName then
        ({ s with windowCallsAvailable := false, windowCallsChecked := true }, .ok none)
      else (s, .error)
    | .parseErr => (s, .error)
    | .ok d => (s, .ok (some d))

/-! ## Notes and the handle registry

`StickyNote` carries the per-window GUI state relevant to matching
(`WindowID`, `LastKnownPos`, `LastKnownSize`); `Note` is a member of the
process-wide `NoteSet.Notes` slice, with `GUI = none` modelling a nil
`*StickyNote` pointer.  The Go matchers scan `ns.Notes` and skip the note
being matched via pointer inequality `otherNote != note`; since each
`*Note` occurs exactly once in the slice, this is modelled by the index
`self` of the note in the list. -/

structure StickyNote where
  WindowID : Nat
  LastKnownPos : Int × Int
  LastKnownSize : Int × Int
  deriving Repr, DecidableEq

structure Note where
  UUID : String
  GUI : Option StickyNote
  deriving Repr, DecidableEq

/-- `otherNote.GUI != nil && otherNote.GUI.WindowID == wid`. -/
def holdsWindowID (n : Note) (wid : Nat) : Bool :=
  match n.GUI with
  | some g => g.WindowID == wid
  | none => false

/-- The scan `for _, otherNote := range sn.NoteSet.Notes` starting at
index `j`, looking for a live note other than the one at index `self`
that already holds window handle `wid`. -/
def assignedToOtherFrom : List Note → Nat → Nat → Nat → Bool
  | [], _, _, _ => false
  | n :: rest, j, self, wid =>
    (j != self && holdsWindowID n wid) || assignedToOtherFrom rest (j + 1) self wid

/-- The conflict scan performed (repeatedly) by every matcher in the Go
code before committing a window-handle assignment. -/
def assignedToOther (notes : List Note) (self wid : Nat) : Bool :=
  assignedToOtherFrom notes 0 self wid

/-- The window title set by `buildNote` via
`sn.WinMain.SetTitle(fmt.Sprintf("Sticky Notes - %s", sn.Note.UUID[:8]))`.
(Go slices the first 8 bytes; UUIDs are ASCII so this is the first 8
characters.) -/
def buildNoteTitle (uuid : String) : String :=
  "Sticky Notes - " ++ String.mk (uuid.toList.take 8)

/-- The expected title constructed by `assignWindowID`
(`fmt.Sprintf("Sticky Notes - %s", sn.Note.UUID[:8])`). -/
def assignExpectedTitle (uuid : String) : String :=
  "Sticky Notes - " ++ String.mk (uuid.toList.take 8)

/-! ## The title-based identity matcher (`assignWindowID`, current version)

The external calls are oracles: `detailsOf` is the `GetWindowDetails`
round-trip for a given handle (`none` models a non-nil error or nil
details), and the `GetCurrentProcessWindows` result comes in as
`Option (List WindowInfo)` (`none` models a non-nil error).  The three
redundant conflict re-checks of the source are kept as written. -/

/-- The candidate loop of `assignWindowID`: first unclaimed window whose
(details, falling back to listing) title equals `expected` gets claimed;
the redundant `conflict` / `finalConflict` / "one more check" scans of
the source are reproduced. -/
def assignLoop (detailsOf : Nat → Option WindowDetails) (notes : List Note)
    (self : Nat) (expected : String) : List WindowInfo → Option Nat
  | [] => none
  | win :: rest =>
    if assignedToOther notes self win.ID then
      assignLoop detailsOf notes self expected rest
    else
      match detailsOf win.ID with
      | none =>
        -- fallback: match using the title from List() if available
        if win.Title == expected then
          if assignedToOther notes self win.ID then
            assignLoop detailsOf notes self expected rest
          else if assignedToOther notes self win.ID then
            assignLoop detailsOf notes self expected rest
          else if assignedToOther notes self win.ID then
            none  -- the "one more check" loop returns without assigning
          else some win.ID
        else assignLoop detailsOf notes self expected rest
      | some d =>
        if d.Title == expected then
          if assignedToOther notes self win.ID then
            assignLoop detailsOf notes self expected rest
          else if assignedToOther notes self win.ID then
            assignLoop detailsOf notes self expected rest
          else if assignedToOther notes self win.ID then
            none  -- the "one more check" loop returns without assigning
          else some win.ID
        else assignLoop detailsOf notes self expected rest

/-- `assignWindowID` (title-matching version): returns the note's new
`WindowID` given its current one. -/
def assignWindowID (detailsOf : Nat → Option WindowDetails)
    (listRes : Option (List WindowInfo)) (notes : List Note) (self : Nat)
    (uuid : String) (currentID : Nat) : Nat :=
  if currentID != 0 then currentID
  else
    match listRes with
    | none => currentID
    | some windows =>
      if windows.isEmpty then currentID
      else
        match assignLoop detailsOf notes self (assignExpectedTitle uuid) windows with
        | some wid => wid
        | none => currentID

/-- The inline title matcher of `onConfigure` (current version): details
must succeed, exact title match, a single conflict re-check, no fallback
to the listing title. -/
def confLoop (detailsOf : Nat → Option WindowDetails) (notes : List Note)
    (self : Nat) (expected : String) : List WindowInfo → Option Nat
  | [] => none
  | win :: rest =>
    if assignedToOther notes self win.ID then
      confLoop detailsOf notes self expected rest
    else
      match detailsOf win.ID with
      | none => confLoop detailsOf notes self expected rest
      | some d =>
        if d.Title == expected then
          if assignedToOther notes self win.ID then
            confLoop detailsOf notes self expected rest
          else some win.ID
        else confLoop detailsOf notes self expected rest

/-- The inline title matcher of the 300ms `buildNote`/`Show` timer
callbacks: details must succeed, exact title match, redundant conflict
re-checks (`conflict`, `finalConflict`, `stillAvailable`). -/
def buildShowLoop (detailsOf : Nat → Option WindowDetails) (notes : List Note)
    (self : Nat) (expected : String) : List WindowInfo → Option Nat
  | [] => none
  | win :: rest =>
    if assignedToOther notes self win.ID then
      buildShowLoop detailsOf notes self expected rest
    else
      match detailsOf win.ID with
      | none => buildShowLoop detailsOf notes self expected rest
      | some d =>
        if d.Title == expected then
          if assignedToOther notes self win.ID then
            buildShowLoop detailsOf notes self expected rest
          else if assignedToOther notes self win.ID then
            buildShowLoop detailsOf notes self expected rest
          else if assignedToOther notes self win.ID then
            buildShowLoop detailsOf notes self expected rest
          else some win.ID
        else buildShowLoop detailsOf notes self expected rest

/-- The effective title a candidate presents to `assignLoop`: the
`Details` title when the query succeeds, otherwise the `List` title. -/
def effectiveTitle (detailsOf : Nat → Option WindowDetails)
    (win : WindowInfo) : String :=
  match detailsOf win.ID with
  | some d => d.Title
  | none => win.Title

/-! ## The size/position-scored matcher (`assignWindowID`, first version)

This earlier variant of `assignWindowID` in the source matches by
geometry: size within 10 pixels scores 10, position within 50 pixels of
the expected position (when one is known, i.e. not `(0,0)`) scores 5,
and the best strictly-positive scorer wins (first encountered on
ties). -/

/-- `WindowDetails` built directly from a `List` entry (the remaining Go
struct fields are zero-valued). -/
def detailsFromInfo (win : WindowInfo) : WindowDetails :=
  { ID := win.ID, PID := win.PID, X := win.X, Y := win.Y, Width := win.Width,
    Height := win.Height, WMClass := win.WMClass, Title := win.Title,
    Maximized := 0, Focus := false }

/-- Geometry used for a candidate: the `List` entry itself, unless it
reports size `0x0`, in which case a `Details` query is made (`none`
means the candidate is skipped). -/
def candidateDetails (detailsOf : Nat → Option WindowDetails)
    (win : WindowInfo) : Option WindowDetails :=
  let d := detailsFromInfo win
  if d.Width == 0 && d.Height == 0 then detailsOf win.ID else some d

/-- The match score of the scored `assignWindowID`: `(w, h)` is the local
toolkit size of the note's window, `(ex, ey)` its `LastKnownPos`. -/
def matchScore (d : WindowDetails) (w h ex ey : Int) : Int :=
  (if absInt (d.Width - w) < 10 && absInt (d.Height - h) < 10 then 10 else 0)
    + (if (ex != 0 || ey != 0) &&
          (absInt (d.X - ex) < 50 && absInt (d.Y - ey) < 50) then 5 else 0)

/-- Whether a candidate's size matches within the 10-pixel tolerance. -/
def sizeMatches (d : WindowDetails) (w h : Int) : Bool :=
  absInt (d.Width - w) < 10 && absInt (d.Height - h) < 10

/-- The best-match fold of the scored `assignWindowID`: skip claimed
candidates, resolve geometry, keep the strictly highest scorer. -/
def bestMatchLoop (detailsOf : Nat → Option WindowDetails) (notes : List Note)
    (self : Nat) (w h ex ey : Int) :
    List WindowInfo → Nat × Int → Nat × Int
  | [], best => best
  | win :: rest, best =>
    if assignedToOther notes self win.ID then
      bestMatchLoop detailsOf notes self w h ex ey rest best
    else
      match candidateDetails detailsOf win with
      | none => bestMatchLoop detailsOf notes self w h ex ey rest best
      | some d =>
        let score := matchScore d w h ex ey
        if score > best.2 then
          bestMatchLoop detailsOf notes self w h ex ey rest (win.ID, score)
        else
          bestMatchLoop detailsOf notes self w h ex ey rest best

/-- The scored (first) version of `assignWindowID`. -/
def assignWindowIDScored (detailsOf : Nat → Option WindowDetails)
    (listRes : Option (List WindowInfo)) (notes : List Note) (self : Nat)
    (w h ex ey : Int) (currentID : Nat) : Nat :=
  if currentID != 0 then currentID
  else
    match listRes with
    | none => currentID
    | some windows =>
      if windows.isEmpty then currentID
      else
        if (bestMatchLoop detailsOf notes self w h ex ey windows (0, 0)).1 != 0 then
          (bestMatchLoop detailsOf notes self w h ex ey windows (0, 0)).1
        else currentID

/-- A candidate is eligible for the scored matcher when it is unclaimed
and its geometry resolves. -/
def eligible (detailsOf : Nat → Option WindowDetails) (notes : List Note)
    (self : Nat) (win : WindowInfo) : Prop :=
  assignedToOther notes self win.ID = false ∧
    ∃ d, candidateDetails detailsOf win = some d

/-! ## The note-set state machine

Events are the operations of the source that touch `WindowID`:
`NoteSet.New` + `buildNote` (fresh GUI, handle 0), `Show` on a destroyed
window (rebuild), `StickyNote.Hide` (handle reset to 0, per the current
version of `Hide`), `onDelete`/`onWindowDelete` (GUI cleared),
`Note.Delete` (note removed from the slice), and the four matchers.
Everything runs on the single GTK main loop, so a step is atomic. -/

structure MatchEnv where
  detailsOf : Nat → Option WindowDetails
  listRes : Option (List WindowInfo)

inductive Event where
  | create (uuid : String) (pos size : Int × Int)
  | rebuild (i : Nat) (pos size : Int × Int)
  | hide (i : Nat)
  | clearGUI (i : Nat)
  | remove (i : Nat)
  | assign (i : Nat) (env : MatchEnv)
  | confAssign (i : Nat) (env : MatchEnv)
  | buildShowAssign (i : Nat) (env : MatchEnv)
  | scoredAssign (i : Nat) (env : MatchEnv) (w h : Int)

/-- Overwrite note `i`'s `WindowID` with the value computed by `newID`
from the note and its GUI (no-op when the note or its GUI is absent,
matching the `note.GUI != nil` guards of the source). -/
def stepAssign (notes : List Note) (i : Nat) (newID : Note → StickyNote → Nat) :
    List Note :=
  match notes[i]? with
  | none => notes
  | some n =>
    match n.GUI with
    | none => notes
    | some g => notes.set i { n with GUI := some { g with WindowID := newID n g } }

def step (notes : List Note) : Event → List Note
  | .create uuid pos size =>
    notes ++ [{ UUID := uuid, GUI := some ⟨0, pos, size⟩ }]
  | .rebuild i pos size =>
    match notes[i]? with
    | none => notes
    | some n => notes.set i { n with GUI := some ⟨0, pos, size⟩ }
  | .hide i => stepAssign notes i (fun _ _ => 0)
  | .clearGUI i =>
    match notes[i]? with
    | none => notes
    | some n => notes.set i { n with GUI := none }
  | .remove i => notes.eraseIdx i
  | .assign i env => stepAssign notes i (fun n g =>
      assignWindowID env.detailsOf env.listRes notes i n.UUID g.WindowID)
  | .confAssign i env => stepAssign notes i (fun n g =>
      if g.WindowID == 0 then
        match env.listRes with
        | none => g.WindowID
        | some ws =>
          match confLoop env.detailsOf notes i (assignExpectedTitle n.UUID) ws with
          | some wid => wid
          | none => g.WindowID
      else g.WindowID)
  | .buildShowAssign i env => stepAssign notes i (fun n g =>
      if g.WindowID == 0 then
        match env.listRes with
        | none => g.WindowID
        | some ws =>
          match buildShowLoop env.detailsOf notes i (assignExpectedTitle n.UUID) ws with
          | some wid => wid
          | none => g.WindowID
      else g.WindowID)
  | .scoredAssign i env w h => stepAssign notes i (fun _ g =>
      assignWindowIDScored env.detailsOf env.listRes notes i w h
        g.LastKnownPos.1 g.LastKnownPos.2 g.WindowID)

/-- States reachable from an empty note set. -/
inductive Reachable : List Note → Prop where
  | init : Reachable []
  | next : ∀ s e, Reachable s → Reachable (step s e)

/-- Two notes never hold the same non-zero window handle. -/
def NoDupHandle (a b : Note) : Prop :=
  ∀ ga gb, a.GUI = some ga → b.GUI = some gb →
    ga.WindowID ≠ 0 → ga.WindowID ≠ gb.WindowID

/-- The injectivity invariant: distinct live notes never share a
non-zero window handle. -/
def InjectiveHandles (notes : List Note) : Prop :=
  ∀ (i j : Nat), i ≠ j → ∀ a b, notes[i]? = some a → notes[j]? = some b →
    NoDupHandle a b

/-! ## Position sync (`onConfigure`) and geometry resolution (`UpdateNote`)

`ConfEnv` bundles the environment of one configure notification: the
availability flag, the `GetCurrentProcessWindows` result, the `Details`
oracle, and the local toolkit's self-reported geometry.  `ConfState`
carries the note's GUI state, whether a debounced save timer is pending
(`saveTimeoutID != 0`), and the log of persistence writes performed so
far (each logged with the geometry it persists for this note). -/

structure ConfEnv where
  available : Bool
  listRes : Option (List WindowInfo)
  detailsOf : Nat → Option WindowDetails
  localPos : Int × Int
  localSize : Int × Int

structure ConfState where
  note : StickyNote
  pendingSave : Bool
  saves : List ((Int × Int) × (Int × Int))

/-- The GTK fallback tail of `onConfigure`: adopt the local position only
when it is not `(0,0)` and the local size only when both dimensions
exceed 1. -/
def gtkFallback (env : ConfEnv) (g : StickyNote) : StickyNote :=
  let g1 := if env.localPos.1 != 0 || env.localPos.2 != 0 then
      { g with LastKnownPos := env.localPos } else g
  if env.localSize.1 > 1 && env.localSize.2 > 1 then
    { g1 with LastKnownSize := env.localSize } else g1

/-- `onConfigure` (current version): cancel any pending save timer, run
the inline title matcher when the handle is unassigned, resolve geometry
(external details when a handle is held, GTK fallback otherwise), and
schedule a debounced 500ms save.  Every exit path schedules the save. -/
def onConfigure (env : ConfEnv) (notes : List Note) (self : Nat)
    (uuid : String) (s : ConfState) : ConfState :=
  let s1 : ConfState := { s with pendingSave := false }
  if env.available then
    let wid :=
      if s1.note.WindowID == 0 then
        match env.listRes with
        | none => 0
        | some ws =>
          match confLoop env.detailsOf notes self (assignExpectedTitle uuid) ws with
          | some w => w
          | none => 0
      else s1.note.WindowID
    if wid != 0 then
      match env.detailsOf wid with
      | some d =>
        { note := { WindowID := wid, LastKnownPos := (d.X, d.Y),
                    LastKnownSize := (d.Width, d.Height) },
          pendingSave := true, saves := s1.saves }
      | none =>
        { note := gtkFallback env { s1.note with WindowID := wid },
          pendingSave := true, saves := s1.saves }
    else
      { note := gtkFallback env { s1.note with WindowID := wid },
        pendingSave := true, saves := s1.saves }
  else
    { note := gtkFallback env s1.note, pendingSave := true, saves := s1.saves }

/-- The debounced save timer firing: persist the note's current
last-known geometry (`NoteSet.Save` snapshots the in-memory state at
fire time) and clear the timer.  Firing without a pending timer is
impossible (one-shot glib timers), modelled as a no-op. -/
def fireSave (s : ConfState) : ConfState :=
  if s.pendingSave then
    { s with pendingSave := false,
             saves := s.saves ++ [(s.note.LastKnownPos, s.note.LastKnownSize)] }
  else s

/-- A burst of configure notifications with no timer expiry in between
(all within the debounce window). -/
def runConfigures (notes : List Note) (self : Nat) (uuid : String)
    (s : ConfState) (es : List ConfEnv) : ConfState :=
  es.foldl (fun st e => onConfigure e notes self uuid st) s

/-- The geometry-resolution part of `UpdateNote`: external details when
the integration is available and a handle is held, GTK fallback
otherwise (unconditional overwrite).  The second component records
whether a `GetWindowDetails` IPC query was attempted. -/
def UpdateNoteGeometry (available : Bool)
    (detailsOf : Nat → Option WindowDetails)
    (localPos localSize : Int × Int) (g : StickyNote) : StickyNote × Bool :=
  if available && g.WindowID != 0 then
    match detailsOf g.WindowID with
    | some d =>
      ({ g with LastKnownPos := (d.X, d.Y),
                LastKnownSize := (d.Width, d.Height) }, true)
    | none =>
      ({ g with LastKnownPos := localPos, LastKnownSize := localSize }, true)
  else
    ({ g with LastKnownPos := localPos, LastKnownSize := localSize }, false)

/-! ## The reconciliation scheduler (timers, hide/destroy, cancellation)

A per-note scheduler state: the handle, whether the GTK window is hidden
or destroyed, which one-shot timers are still pending, and the log of
toolkit/IPC operations the timer callbacks have performed.  `Hide`
cancels `saveTimeoutID` and resets the handle; the 300ms matching/move
callback of `buildNote` has no cancellation hook and re-checks nothing
about the window at fire time. -/

inductive GuiAction where
  | gtkHide
  | gtkMove (x y : Int)
  | dbusMove (wid : Nat) (x y : Int)
  | setOpacityVisible
  deriving Repr, DecidableEq

structure SchedState where
  windowID : Nat
  winHidden : Bool
  winDestroyed : Bool
  pendingMatchTimer : Bool
  pendingSaveTimer : Bool
  actions : List GuiAction
  deriving Repr, DecidableEq

/-- `StickyNote.Hide`: cancel the pending save timeout, reset the handle
to the sentinel, hide the GTK window.  The matching timers are not
touched. -/
def schedHide (s : SchedState) : SchedState :=
  { s with pendingSaveTimer := false, windowID := 0, winHidden := true,
           actions := s.actions ++ [GuiAction.gtkHide] }

/-- `onDelete` (user confirms deletion): cancel the pending save timeout
and destroy the window.  The matching timers are not touched. -/
def schedDelete (s : SchedState) : SchedState :=
  { s with pendingSaveTimer := false, winDestroyed := true }

structure BuildTimerEnv where
  available : Bool
  listRes : Option (List WindowInfo)
  detailsOf : Nat → Option WindowDetails
  moveOk : Bool

/-- The 300ms `buildNote` timer callback: one-shot; when the handle is
still unassigned run the inline title matcher; then move the window
(externally when a handle was found, locally otherwise) and restore
opacity — without checking whether the window was hidden or destroyed in
the meantime. -/
def fireMatchTimer (env : BuildTimerEnv) (notes : List Note) (self : Nat)
    (uuid : String) (restorePos : Int × Int) (s : SchedState) : SchedState :=
  if !s.pendingMatchTimer then s
  else
    let s1 := { s with pendingMatchTimer := false }
    let wid :=
      if s1.windowID == 0 then
        match env.listRes with
        | none => 0
        | some ws =>
          match buildShowLoop env.detailsOf notes self (assignExpectedTitle uuid) ws with
          | some w => w
          | none => 0
      else s1.windowID
    if wid != 0 then
      if env.moveOk then
        { s1 with
          windowID := wid,
          actions := s1.actions ++
            [.dbusMove wid restorePos.1 restorePos.2, .setOpacityVisible] }
      else
        { s1 with
          windowID := wid,
          actions := s1.actions ++
            [.dbusMove wid restorePos.1 restorePos.2,
             .gtkMove restorePos.1 restorePos.2, .setOpacityVisible] }
    else
      if !env.available then
        { s1 with
          windowID := wid,
          actions := s1.actions ++
            [.gtkMove restorePos.1 restorePos.2, .setOpacityVisible] }
      else
        { s1 with
          windowID := wid,
          actions := s1.actions ++
            [.setOpacityVisible, .gtkMove restorePos.1 restorePos.2] }

/-! ## Supporting lemmas -/

theorem assignedToOtherFrom_eq_true_iff (l : List Note) (j self wid : Nat) :
    assignedToOtherFrom l j self wid = true ↔
      ∃ k a, l[k]? = some a ∧ j + k ≠ self ∧ holdsWindowID a wid = true := by
  induction l generalizing j with
  | nil => simp [assignedToOtherFrom]
  | cons n rest ih =>
    simp only [assignedToOtherFrom, Bool.or_eq_true, Bool.and_eq_true, bne_iff_ne, ih]
    constructor
    · rintro (⟨hjs, hh⟩ | ⟨k, a, hk, hks, hh⟩)
      · exact ⟨0, n, by simp, by simpa using hjs, hh⟩
      · exact ⟨k + 1, a, by simpa using hk, by omega, hh⟩
    · rintro ⟨k, a, hk, hks, hh⟩
      cases k with
      | zero =>
        left
        simp only [List.getElem?_cons_zero, Option.some.injEq] at hk
        subst hk
        exact ⟨by omega, hh⟩
      | succ k' =>
        right
        exact ⟨k', a, by simpa using hk, by omega, hh⟩

theorem assignedToOther_eq_true_iff (notes : List Note) (self wid : Nat) :
    assignedToOther notes self wid = true ↔
      ∃ k a, notes[k]? = some a ∧ k ≠ self ∧ holdsWindowID a wid = true := by
  unfold assignedToOther
  rw [assignedToOtherFrom_eq_true_iff]
  simp

theorem assignedToOther_eq_false_iff (notes : List Note) (self wid : Nat) :
    assignedToOther notes self wid = false ↔
      ∀ k a, notes[k]? = some a → k ≠ self → holdsWindowID a wid = false := by
  rw [← Bool.not_eq_true, assignedToOther_eq_true_iff]
  push_neg
  constructor
  · intro h k a hk hks
    have := h k a hk hks
    simpa using this
  · intro h k a hk hks
    simp [h k a hk hks]

theorem assignLoop_some_unclaimed {detailsOf : Nat → Option WindowDetails}
    {notes : List Note} {self : Nat} {expected : String}
    {ws : List WindowInfo} {wid : Nat}
    (h : assignLoop detailsOf notes self expected ws = some wid) :
    assignedToOther notes self wid = false ∧ ∃ win ∈ ws, win.ID = wid := by
  induction ws with
  | nil => simp [assignLoop] at h
  | cons win rest ih =>
    simp only [assignLoop] at h
    cases hA : assignedToOther notes self win.ID with
    | true =>
      rw [hA] at h
      simp only [if_pos rfl] at h
      obtain ⟨hfree, win', hmem, hid⟩ := ih h
      exact ⟨hfree, win', List.mem_cons_of_mem _ hmem, hid⟩
    | false =>
      rw [hA] at h
      simp only [Bool.false_eq_true, if_false] at h
      cases hD : detailsOf win.ID with
      | none =>
        rw [hD] at h
        by_cases hT : (win.Title == expected) = true
        · simp only [hT, if_true] at h
          simp only [Option.some.injEq] at h
          subst h
          exact ⟨hA, win, List.mem_cons_self _ _, rfl⟩
        · simp only [eq_false_of_ne_true hT, Bool.false_eq_true, if_false] at h
          obtain ⟨hfree, win', hmem, hid⟩ := ih h
          exact ⟨hfree, win', List.mem_cons_of_mem _ hmem, hid⟩
      | some d =>
        rw [hD] at h
        by_cases hT : (d.Title == expected) = true
        · simp only [hT, if_true] at h
          simp only [Option.some.injEq] at h
          subst h
          exact ⟨hA, win, List.mem_cons_self _ _, rfl⟩
        · simp only [eq_false_of_ne_true hT, Bool.false_eq_true, if_false] at h
          obtain ⟨hfree, win', hmem, hid⟩ := ih h
          exact ⟨hfree, win', List.mem_cons_of_mem _ hmem, hid⟩

theorem confLoop_some_unclaimed {detailsOf : Nat → Option WindowDetails}
    {notes : List Note} {self : Nat} {expected : String}
    {ws : List WindowInfo} {wid : Nat}
    (h : confLoop detailsOf notes self expected ws = some wid) :
    assignedToOther notes self wid = false ∧ ∃ win ∈ ws, win.ID = wid := by
  induction ws with
  | nil => simp [confLoop] at h
  | cons win rest ih =>
    simp only [confLoop] at h
    cases hA : assignedToOther notes self win.ID with
    | true =>
      rw [hA] at h
      simp only [if_pos rfl] at h
      obtain ⟨hfree, win', hmem, hid⟩ := ih h
      exact ⟨hfree, win', List.mem_cons_of_mem _ hmem, hid⟩
    | false =>
      rw [hA] at h
      simp only [Bool.false_eq_true, if_false] at h
      cases hD : detailsOf win.ID with
      | none =>
        rw [hD] at h
        obtain ⟨hfree, win', hmem, hid⟩ := ih h
        exact ⟨hfree, win', List.mem_cons_of_mem _ hmem, hid⟩
      | some d =>
        rw [hD] at h
        by_cases hT : (d.Title == expected) = true
        · simp only [hT, if_true] at h
          simp only [Option.some.injEq] at h
          subst h
          exact ⟨hA, win, List.mem_cons_self _ _, rfl⟩
        · simp only [eq_false_of_ne_true hT, Bool.false_eq_true, if_false] at h
          obtain ⟨hfree, win', hmem, hid⟩ := ih h
          exact ⟨hfree, win', List.mem_cons_of_mem _ hmem, hid⟩

theorem buildShowLoop_some_unclaimed {detailsOf : Nat → Option WindowDetails}
    {notes : List Note} {self : Nat} {expected : String}
    {ws : List WindowInfo} {wid : Nat}
    (h : buildShowLoop detailsOf notes self expected ws = some wid) :
    assignedToOther notes self wid = false ∧ ∃ win ∈ ws, win.ID = wid := by
  induction ws with
  | nil => simp [buildShowLoop] at h
  | cons win rest ih =>
    simp only [buildShowLoop] at h
    cases hA : assignedToOther notes self win.ID with
    | true =>
      rw [hA] at h
      simp only [if_pos rfl] at h
      obtain ⟨hfree, win', hmem, hid⟩ := ih h
      exact ⟨hfree, win', List.mem_cons_of_mem _ hmem, hid⟩
    | false =>
      rw [hA] at h
      simp only [Bool.false_eq_true, if_false] at h
      cases hD : detailsOf win.ID with
      | none =>
        rw [hD] at h
        obtain ⟨hfree, win', hmem, hid⟩ := ih h
        exact ⟨hfree, win', List.mem_cons_of_mem _ hmem, hid⟩
      | some d =>
        rw [hD] at h
        by_cases hT : (d.Title == expected) = true
        · simp only [hT, if_true] at h
          simp only [Option.some.injEq] at h
          subst h
          exact ⟨hA, win, List.mem_cons_self _ _, rfl⟩
        · simp only [eq_false_of_ne_true hT, Bool.false_eq_true, if_false] at h
          obtain ⟨hfree, win', hmem, hid⟩ := ih h
          exact ⟨hfree, win', List.mem_cons_of_mem _ hmem, hid⟩

theorem bestMatchLoop_cases (detailsOf : Nat → Option WindowDetails)
    (notes : List Note) (self : Nat) (w h ex ey : Int)
    (ws : List WindowInfo) (best : Nat × Int) :
    bestMatchLoop detailsOf notes self w h ex ey ws best = best ∨
      ∃ win ∈ ws, assignedToOther notes self win.ID = false ∧
        ∃ d, candidateDetails detailsOf win = some d ∧
          bestMatchLoop detailsOf notes self w h ex ey ws best =
            (win.ID, matchScore d w h ex ey) := by
  induction ws generalizing best with
  | nil => left; simp [bestMatchLoop]
  | cons win rest ih =>
    simp only [bestMatchLoop]
    cases hA : assignedToOther notes self win.ID with
    | true =>
      simp only [if_pos rfl]
      rcases ih best with h1 | ⟨win', hmem, hfree, d, hd, heq⟩
      · left; exact h1
      · right; exact ⟨win', List.mem_cons_of_mem _ hmem, hfree, d, hd, heq⟩
    | false =>
      simp only [Bool.false_eq_true, if_false]
      cases hD : candidateDetails detailsOf win with
      | none =>
        rcases ih best with h1 | ⟨win', hmem, hfree, d, hd, heq⟩
        · left; exact h1
        · right; exact ⟨win', List.mem_cons_of_mem _ hmem, hfree, d, hd, heq⟩
      | some d =>
        by_cases hS : matchScore d w h ex ey > best.2
        · simp only [if_pos hS]
          rcases ih (win.ID, matchScore d w h ex ey) with h1 |
            ⟨win', hmem, hfree, d', hd', heq⟩
          · right
            exact ⟨win, List.mem_cons_self _ _, hA, d, hD, h1⟩
          · right
            exact ⟨win', List.mem_cons_of_mem _ hmem, hfree, d', hd', heq⟩
        · simp only [if_neg hS]
          rcases ih best with h1 | ⟨win', hmem, hfree, d', hd', heq⟩
          · left; exact h1
          · right; exact ⟨win', List.mem_cons_of_mem _ hmem, hfree, d', hd', heq⟩

theorem bestMatchLoop_snd_ge_init (detailsOf : Nat → Option WindowDetails)
    (notes : List Note) (self : Nat) (w h ex ey : Int)
    (ws : List WindowInfo) (best : Nat × Int) :
    best.2 ≤ (bestMatchLoop detailsOf notes self w h ex ey ws best).2 := by
  induction ws generalizing best with
  | nil => simp [bestMatchLoop]
  | cons win rest ih =>
    simp only [bestMatchLoop]
    cases hA : assignedToOther notes self win.ID with
    | true => simpa using ih best
    | false =>
      simp only [Bool.false_eq_true, if_false]
      cases hD : candidateDetails detailsOf win with
      | none => exact ih best
      | some d =>
        by_cases hS : matchScore d w h ex ey > best.2
        · simp only [if_pos hS]
          have := ih (win.ID, matchScore d w h ex ey)
          simp only at this
          omega
        · simp only [if_neg hS]
          exact ih best

theorem bestMatchLoop_snd_ge_candidate (detailsOf : Nat → Option WindowDetails)
    (notes : List Note) (self : Nat) (w h ex ey : Int)
    (ws : List WindowInfo) (best : Nat × Int) (win : WindowInfo)
    (hmem : win ∈ ws) (hfree : assignedToOther notes self win.ID = false)
    (d : WindowDetails) (hd : candidateDetails detailsOf win = some d) :
    matchScore d w h ex ey ≤ (bestMatchLoop detailsOf notes self w h ex ey ws best).2 := by
  induction ws generalizing best with
  | nil => cases hmem
  | cons win' rest ih =>
    simp only [bestMatchLoop]
    rcases List.mem_cons.mp hmem with heq | hmem'
    · subst heq
      rw [hfree]
      simp only [Bool.false_eq_true, if_false, hd]
      by_cases hS : matchScore d w h ex ey > best.2
      · simp only [if_pos hS]
        have := bestMatchLoop_snd_ge_init detailsOf notes self w h ex ey rest
          (win.ID, matchScore d w h ex ey)
        simpa using this
      · simp only [if_neg hS]
        have := bestMatchLoop_snd_ge_init detailsOf notes self w h ex ey rest best
        omega
    · cases hA : assignedToOther notes self win'.ID with
      | true => simpa using ih best hmem'
      | false =>
        simp only [Bool.false_eq_true, if_false]
        cases hD : candidateDetails detailsOf win' with
        | none => exact ih best hmem'
        | some d' =>
          by_cases hS : matchScore d' w h ex ey > best.2
          · simp only [if_pos hS]
            exact ih _ hmem'
          · simp only [if_neg hS]
            exact ih best hmem'

theorem assignWindowID_eq_or_unclaimed (detailsOf : Nat → Option WindowDetails)
    (listRes : Option (List WindowInfo)) (notes : List Note) (self : Nat)
    (uuid : String) (currentID : Nat) :
    assignWindowID detailsOf listRes notes self uuid currentID = currentID ∨
      assignedToOther notes self
        (assignWindowID detailsOf listRes notes self uuid currentID) = false := by
  unfold assignWindowID
  by_cases h0 : (currentID != 0) = true
  · rw [if_pos h0]; left; rfl
  · rw [if_neg h0]
    cases listRes with
    | none => left; rfl
    | some ws =>
      dsimp only
      by_cases hE : ws.isEmpty = true
      · rw [if_pos hE]; left; rfl
      · rw [if_neg hE]
        cases hL : assignLoop detailsOf notes self (assignExpectedTitle uuid) ws with
        | none => left; rfl
        | some wid => right; exact (assignLoop_some_unclaimed hL).1

theorem assignWindowIDScored_eq_or_unclaimed (detailsOf : Nat → Option WindowDetails)
    (listRes : Option (List WindowInfo)) (notes : List Note) (self : Nat)
    (w h ex ey : Int) (currentID : Nat) :
    assignWindowIDScored detailsOf listRes notes self w h ex ey currentID = currentID ∨
      assignedToOther notes self
        (assignWindowIDScored detailsOf listRes notes self w h ex ey currentID) = false := by
  unfold assignWindowIDScored
  by_cases h0 : (currentID != 0) = true
  · rw [if_pos h0]; left; rfl
  · rw [if_neg h0]
    cases listRes with
    | none => left; rfl
    | some ws =>
      dsimp only
      by_cases hE : ws.isEmpty = true
      · rw [if_pos hE]; left; rfl
      · rw [if_neg hE]
        rcases bestMatchLoop_cases detailsOf notes self w h ex ey ws (0, 0) with
          hc | ⟨win, hmem, hfree, d, hd, heq⟩
        · rw [hc]; left; simp
        · rw [heq]
          by_cases hz : (win.ID != 0) = true
          · right
            simp only [if_pos hz]
            exact hfree
          · left
            simp only [if_neg hz]

theorem injective_set_windowID {notes : List Note} {i : Nat} {n : Note}
    {g : StickyNote} {wid : Nat}
    (hn : notes[i]? = some n) (hg : n.GUI = some g)
    (hinv : InjectiveHandles notes)
    (hwid : wid = 0 ∨ wid = g.WindowID ∨ assignedToOther notes i wid = false) :
    InjectiveHandles (notes.set i { n with GUI := some { g with WindowID := wid } }) := by
  have hi : i < notes.length := by
    by_contra hlen
    push_neg at hlen
    rw [List.getElem?_eq_none hlen] at hn
    cases hn
  intro j k hjk a b ha hb
  by_cases hj : j = i
  · subst hj
    have hk : j ≠ k := hjk
    rw [List.getElem?_set_self hi, Option.some.injEq] at ha
    rw [List.getElem?_set_ne hjk] at hb
    subst ha
    intro ga gb hga hgb hnz
    simp only [Option.some.injEq] at hga
    subst hga
    rcases hwid with h0 | hsame | hfree
    · exact absurd h0 hnz
    · have := hinv j k hjk n b hn hb g gb hg hgb (by simpa [hsame] using hnz)
      simpa [hsame] using this
    · intro hcontra
      have hb' := (assignedToOther_eq_false_iff notes j wid).mp hfree k b hb
        (fun hh => hjk hh.symm)
      simp only [holdsWindowID, hgb] at hb'
      simp only at hcontra
      rw [← hcontra] at hb'
      simp at hb'
  · by_cases hk : k = i
    · subst hk
      rw [List.getElem?_set_ne (Ne.symm hj)] at ha
      rw [List.getElem?_set_self hi, Option.some.injEq] at hb
      subst hb
      intro ga gb hga hgb hnz
      simp only [Option.some.injEq] at hgb
      subst hgb
      rcases hwid with h0 | hsame | hfree
      · simp only [h0]
        exact fun hc => hnz hc
      · have := hinv j k hjk a n ha hn ga g hga hg hnz
        simpa [hsame] using this
      · intro hcontra
        have ha' := (assignedToOther_eq_false_iff notes k wid).mp hfree j a ha hj
        simp only [holdsWindowID, hga] at ha'
        simp only at hcontra
        rw [hcontra] at ha'
        simp at ha'
    · rw [List.getElem?_set_ne (Ne.symm hj)] at ha
      rw [List.getElem?_set_ne (Ne.symm hk)] at hb
      exact hinv j k hjk a b ha hb

theorem injective_set_zero {notes : List Note} {i : Nat} {n' : Note}
    (hinv : InjectiveHandles notes)
    (hz : ∀ g', n'.GUI = some g' → g'.WindowID = 0) :
    InjectiveHandles (notes.set i n') := by
  by_cases hi : i < notes.length
  case neg =>
    rw [List.set_eq_of_length_le (by omega)]
    exact hinv
  intro j k hjk a b ha hb
  by_cases hj : j = i
  · subst hj
    rw [List.getElem?_set_self hi, Option.some.injEq] at ha
    subst ha
    intro ga gb hga hgb hnz
    exact absurd (hz ga hga) hnz
  · by_cases hk : k = i
    · subst hk
      rw [List.getElem?_set_ne (Ne.symm hj)] at ha
      rw [List.getElem?_set_self hi, Option.some.injEq] at hb
      subst hb
      intro ga gb hga hgb hnz
      rw [hz gb hgb]
      exact hnz
    · rw [List.getElem?_set_ne (Ne.symm hj)] at ha
      rw [List.getElem?_set_ne (Ne.symm hk)] at hb
      exact hinv j k hjk a b ha hb

theorem injective_stepAssign {notes : List Note} {i : Nat}
    {newID : Note → StickyNote → Nat}
    (hinv : InjectiveHandles notes)
    (hgood : ∀ n g, notes[i]? = some n → n.GUI = some g →
      newID n g = 0 ∨ newID n g = g.WindowID ∨
        assignedToOther notes i (newID n g) = false) :
    InjectiveHandles (stepAssign notes i newID) := by
  unfold stepAssign
  cases hn : notes[i]? with
  | none => exact hinv
  | some n =>
    dsimp only
    cases hg : n.GUI with
    | none => exact hinv
    | some g => exact injective_set_windowID hn hg hinv (hgood n g hn hg)

theorem getElem?_append_singleton {l : List Note} {x : Note} {j : Nat} {a : Note}
    (h : (l ++ [x])[j]? = some a) :
    l[j]? = some a ∨ (j = l.length ∧ a = x) := by
  by_cases hj : j < l.length
  · left
    rw [List.getElem?_append_left hj] at h
    exact h
  · right
    push_neg at hj
    rw [List.getElem?_append_right hj] at h
    rcases Nat.lt_or_ge j (l.length + 1) with hlt | hge
    · have : j = l.length := by omega
      subst this
      simp only [Nat.sub_self] at h
      simp only [List.getElem?_cons_zero, Option.some.injEq] at h
      exact ⟨rfl, h.symm⟩
    · exfalso
      have : 1 ≤ j - l.length := by omega
      rw [List.getElem?_eq_none (by simpa using this)] at h
      cases h

theorem injective_step {notes : List Note} (hinv : InjectiveHandles notes) :
    ∀ e, InjectiveHandles (step notes e) := by
  intro e
  cases e with
  | create uuid pos size =>
    intro j k hjk a b ha hb
    simp only [step] at ha hb
    rcases getElem?_append_singleton ha with ha' | ⟨hj, ha'⟩
    · rcases getElem?_append_singleton hb with hb' | ⟨hk, hb'⟩
      · exact hinv j k hjk a b ha' hb'
      · subst hb'
        intro ga gb hga hgb hnz
        simp only [Option.some.injEq] at hgb
        rw [← hgb]
        intro hc
        exact hnz (by simpa using hc)
    · subst ha'
      intro ga gb hga hgb hnz
      simp only [Option.some.injEq] at hga
      rw [← hga] at hnz
      simp at hnz
  | rebuild i pos size =>
    simp only [step]
    cases hn : notes[i]? with
    | none => exact hinv
    | some n =>
      dsimp only
      exact injective_set_zero hinv (by intro g' hg'; simp only [Option.some.injEq] at hg'; rw [← hg'])
  | hide i =>
    exact injective_stepAssign hinv (fun n g _ _ => Or.inl rfl)
  | clearGUI i =>
    simp only [step]
    cases hn : notes[i]? with
    | none => exact hinv
    | some n =>
      dsimp only
      exact injective_set_zero hinv (by intro g' hg'; simp at hg')
  | remove i =>
    intro j k hjk a b ha hb
    simp only [step] at ha hb
    rw [List.getElem?_eraseIdx] at ha hb
    by_cases hji : j < i <;> by_cases hki : k < i
    · rw [if_pos hji] at ha; rw [if_pos hki] at hb
      exact hinv j k hjk a b ha hb
    · rw [if_pos hji] at ha; rw [if_neg hki] at hb
      exact hinv j (k + 1) (by omega) a b ha hb
    · rw [if_neg hji] at ha; rw [if_pos hki] at hb
      exact hinv (j + 1) k (by omega) a b ha hb
    · rw [if_neg hji] at ha; rw [if_neg hki] at hb
      exact hinv (j + 1) (k + 1) (by omega) a b ha hb
  | assign i env =>
    refine injective_stepAssign hinv (fun n g _ _ => ?_)
    rcases assignWindowID_eq_or_unclaimed env.detailsOf env.listRes notes i n.UUID
      g.WindowID with heq | hfree
    · exact Or.inr (Or.inl heq)
    · exact Or.inr (Or.inr hfree)
  | confAssign i env =>
    refine injective_stepAssign hinv (fun n g _ _ => ?_)
    by_cases h0 : (g.WindowID == 0) = true
    · simp only [if_pos h0]
      cases env.listRes with
      | none => exact Or.inr (Or.inl rfl)
      | some ws =>
        dsimp only
        cases hL : confLoop env.detailsOf notes i (assignExpectedTitle n.UUID) ws with
        | none => exact Or.inr (Or.inl rfl)
        | some wid => exact Or.inr (Or.inr (confLoop_some_unclaimed hL).1)
    · rw [if_neg h0]
      exact Or.inr (Or.inl rfl)
  | buildShowAssign i env =>
    refine injective_stepAssign hinv (fun n g _ _ => ?_)
    by_cases h0 : (g.WindowID == 0) = true
    · simp only [if_pos h0]
      cases env.listRes with
      | none => exact Or.inr (Or.inl rfl)
      | some ws =>
        dsimp only
        cases hL : buildShowLoop env.detailsOf notes i (assignExpectedTitle n.UUID) ws with
        | none => exact Or.inr (Or.inl rfl)
        | some wid => exact Or.inr (Or.inr (buildShowLoop_some_unclaimed hL).1)
    · rw [if_neg h0]
      exact Or.inr (Or.inl rfl)
  | scoredAssign i env w h =>
    refine injective_stepAssign hinv (fun n g _ _ => ?_)
    rcases assignWindowIDScored_eq_or_unclaimed env.detailsOf env.listRes notes i w h
      g.LastKnownPos.1 g.LastKnownPos.2 g.WindowID with heq | hfree
    · exact Or.inr (Or.inl heq)
    · exact Or.inr (Or.inr hfree)

theorem reachable_injective : ∀ s, Reachable s → InjectiveHandles s := by
  intro s hs
  induction hs with
  | init =>
    intro j k hjk a b ha hb
    simp at ha
  | next s e hs ih => exact injective_step ih e

theorem assignLoop_unique (detailsOf : Nat → Option WindowDetails)
    (notes : List Note) (self : Nat) (expected : String)
    (ws : List WindowInfo) (win : WindowInfo)
    (hmem : win ∈ ws)
    (htitle : effectiveTitle detailsOf win = expected)
    (hothers : ∀ w' ∈ ws, w' ≠ win → effectiveTitle detailsOf w' ≠ expected)
    (hfree : assignedToOther notes self win.ID = false) :
    assignLoop detailsOf notes self expected ws = some win.ID := by
  induction ws with
  | nil => cases hmem
  | cons w rest ih =>
    simp only [assignLoop]
    by_cases hw : w = win
    · subst hw
      rw [hfree]
      simp only [Bool.false_eq_true, if_false]
      unfold effectiveTitle at htitle
      cases hD : detailsOf w.ID with
      | none =>
        rw [hD] at htitle
        dsimp only at htitle ⊢
        simp [htitle]
      | some d =>
        rw [hD] at htitle
        dsimp only at htitle ⊢
        simp [htitle]
    · have hmem' : win ∈ rest := by
        rcases List.mem_cons.mp hmem with he | hr
        · exact absurd he.symm hw
        · exact hr
      have hne : effectiveTitle detailsOf w ≠ expected :=
        hothers w (List.mem_cons_self _ _) hw
      have ihr : assignLoop detailsOf notes self expected rest = some win.ID :=
        ih hmem' (fun w' hw' hne' => hothers w' (List.mem_cons_of_mem _ hw') hne')
      cases hA : assignedToOther notes self w.ID with
      | true => simp only [if_pos rfl]; exact ihr
      | false =>
        simp only [Bool.false_eq_true, if_false]
        unfold effectiveTitle at hne
        cases hD : detailsOf w.ID with
        | none =>
          rw [hD] at hne
          dsimp only at hne ⊢
          have hbeq : (w.Title == expected) = false := by
            simp only [beq_eq_false_iff_ne, ne_eq]
            exact hne
          rw [hbeq]
          simp only [Bool.false_eq_true, if_false]
          exact ihr
        | some d =>
          rw [hD] at hne
          dsimp only at hne ⊢
          have hbeq : (d.Title == expected) = false := by
            simp only [beq_eq_false_iff_ne, ne_eq]
            exact hne
          rw [hbeq]
          simp only [Bool.false_eq_true, if_false]
          exact ihr

theorem onConfigure_pendingSave (env : ConfEnv) (notes : List Note)
    (self : Nat) (uuid : String) (s : ConfState) :
    (onConfigure env notes self uuid s).pendingSave = true := by
  unfold onConfigure
  dsimp only
  repeat' split
  all_goals rfl

theorem onConfigure_saves (env : ConfEnv) (notes : List Note)
    (self : Nat) (uuid : String) (s : ConfState) :
    (onConfigure env notes self uuid s).saves = s.saves := by
  unfold onConfigure
  dsimp only
  repeat' split
  all_goals rfl

theorem runConfigures_saves (notes : List Note) (self : Nat) (uuid : String)
    (s : ConfState) (es : List ConfEnv) :
    (runConfigures notes self uuid s es).saves = s.saves := by
  induction es generalizing s with
  | nil => rfl
  | cons e rest ih =>
    unfold runConfigures at ih ⊢
    simp only [List.foldl_cons]
    rw [ih]
    exact onConfigure_saves e notes self uuid s

theorem runConfigures_pendingSave (notes : List Note) (self : Nat)
    (uuid : String) (s : ConfState) (es : List ConfEnv) (h : es ≠ []) :
    (runConfigures notes self uuid s es).pendingSave = true := by
  induction es generalizing s with
  | nil => exact absurd rfl h
  | cons e rest ih =>
    unfold runConfigures
    simp only [List.foldl_cons]
    cases rest with
    | nil => exact onConfigure_pendingSave e notes self uuid s
    | cons e' rest' => exact ih _ (by simp)

theorem gtkFallback_degenerate (env : ConfEnv) (g : StickyNote)
    (hP : env.localPos = (0, 0))
    (hW : env.localSize.1 ≤ 1 ∨ env.localSize.2 ≤ 1) :
    gtkFallback env g = g := by
  unfold gtkFallback
  have hc1 : (env.localPos.1 != 0 || env.localPos.2 != 0) = false := by
    rw [hP]; decide
  have hc2 : (decide (env.localSize.1 > 1) && decide (env.localSize.2 > 1)) = false := by
    rcases hW with h1 | h2
    · have hd : decide (env.localSize.1 > 1) = false := decide_eq_false (by omega)
      rw [hd, Bool.false_and]
    · have hd : decide (env.localSize.2 > 1) = false := decide_eq_false (by omega)
      rw [hd, Bool.and_false]
  rw [hc1, hc2]
  rfl

/-! ## Claims -/

/-- C10: `GetCurrentProcessWindows` keeps exactly the windows whose PID
equals the current process's PID, in listing order; the "Sticky Notes"
title test in its filter never excludes a PID-matching window, so
candidates with arbitrary or missing titles still reach the matcher. -/
theorem current_process_filter_is_pid_filter (pid : Int) (ws : List WindowInfo) :
    currentProcessFilter pid ws = ws.filter (fun w => w.PID == pid) := by
  induction ws with
  | nil => rfl
  | cons win rest ih =>
    simp only [currentProcessFilter, List.filter_cons]
    by_cases hp : (win.PID == pid) = true
    · by_cases ht : strContains win.Title "Sticky Notes" = true
      · simp [hp, ht, ih]
      · simp [hp, eq_false_of_ne_true ht, ih]
    · simp [eq_false_of_ne_true hp, ih]

/-- C6: geometry resolution (`UpdateNote`): when the integration is
available, the handle is non-zero and the external details query
succeeds, the external geometry is adopted and the query was attempted;
in every other case (unavailable, zero handle, or query failure) the
local toolkit's self-reported geometry is used; when the integration is
unavailable no external query is attempted at all. -/
theorem geometry_resolution (available : Bool)
    (detailsOf : Nat → Option WindowDetails)
    (localPos localSize : Int × Int) (g : StickyNote) :
    (∀ d, available = true → g.WindowID ≠ 0 → detailsOf g.WindowID = some d →
      UpdateNoteGeometry available detailsOf localPos localSize g =
        ({ g with LastKnownPos := (d.X, d.Y),
                  LastKnownSize := (d.Width, d.Height) }, true)) ∧
    ((available = false ∨ g.WindowID = 0 ∨ detailsOf g.WindowID = none) →
      (UpdateNoteGeometry available detailsOf localPos localSize g).1 =
        { g with LastKnownPos := localPos, LastKnownSize := localSize }) ∧
    (available = false →
      UpdateNoteGeometry available detailsOf localPos localSize g =
        ({ g with LastKnownPos := localPos, LastKnownSize := localSize }, false)) := by
  refine ⟨?_, ?_, ?_⟩
  · intro d hA hW hD
    unfold UpdateNoteGeometry
    rw [if_pos]
    · rw [hD]
    · rw [hA, Bool.true_and]
      simpa using hW
  · intro hcase
    unfold UpdateNoteGeometry
    rcases hcase with hA | hW | hD
    · rw [if_neg]
      rw [hA, Bool.false_and]
      exact Bool.false_ne_true
    · rw [if_neg]
      rw [hW]
      simp
    · by_cases hc : (available && g.WindowID != 0) = true
      · rw [if_pos hc, hD]
      · rw [if_neg hc]
  · intro hA
    unfold UpdateNoteGeometry
    rw [if_neg]
    rw [hA, Bool.false_and]
    exact Bool.false_ne_true

/-- C6 witness: a concrete run of each branch. -/
theorem geometry_resolution_witness :
    UpdateNoteGeometry false (fun _ => none) (3, 4) (5, 6)
        { WindowID := 9, LastKnownPos := (1, 1), LastKnownSize := (2, 2) } =
      ({ WindowID := 9, LastKnownPos := (3, 4), LastKnownSize := (5, 6) }, false) :=
  (geometry_resolution false (fun _ => none) (3, 4) (5, 6)
    { WindowID := 9, LastKnownPos := (1, 1), LastKnownSize := (2, 2) }).2.2 rfl

/-- C9 counterexample: `UpdateNote`'s fallback overwrites the last-known
geometry even when the integration is unavailable and the local toolkit
reports the degenerate position `(0,0)` and size `1x1` — the previous
values `(100,100)` / `(200,150)` are NOT retained. -/
theorem geometry_failure_counterexample :
    (UpdateNoteGeometry false (fun _ => none) (0, 0) (1, 1)
        { WindowID := 7, LastKnownPos := (100, 100),
          LastKnownSize := (200, 150) }).1.LastKnownPos = (0, 0) ∧
    (UpdateNoteGeometry false (fun _ => none) (0, 0) (1, 1)
        { WindowID := 7, LastKnownPos := (100, 100),
          LastKnownSize := (200, 150) }).1.LastKnownPos ≠ (100, 100) ∧
    (UpdateNoteGeometry false (fun _ => none) (0, 0) (1, 1)
        { WindowID := 7, LastKnownPos := (100, 100),
          LastKnownSize := (200, 150) }).1.LastKnownSize ≠ (200, 150) := by
  refine ⟨rfl, ?_, ?_⟩ <;> decide

/-- C9 amended: in `onConfigure` (the position-sync path), when the
integration is unavailable and the local toolkit reports position `(0,0)`
and a size of at most 1 in some dimension, the note's last-known
position and size retain their previous values; `UpdateNote`'s fallback,
by contrast, overwrites them unconditionally. -/
theorem geometry_failure_retention (env : ConfEnv) (notes : List Note)
    (self : Nat) (uuid : String) (s : ConfState)
    (hA : env.available = false) (hP : env.localPos = (0, 0))
    (hW : env.localSize.1 ≤ 1 ∨ env.localSize.2 ≤ 1) :
    (onConfigure env notes self uuid s).note.LastKnownPos = s.note.LastKnownPos ∧
    (onConfigure env notes self uuid s).note.LastKnownSize = s.note.LastKnownSize := by
  unfold onConfigure
  dsimp only
  rw [if_neg (by rw [hA]; exact Bool.false_ne_true)]
  rw [gtkFallback_degenerate env _ hP hW]
  exact ⟨rfl, rfl⟩

/-- C9 witness for the amended claim: concrete retention run. -/
theorem geometry_failure_retention_witness :
    (onConfigure
        { available := false, listRes := none, detailsOf := fun _ => none,
          localPos := (0, 0), localSize := (1, 1) }
        [] 0 "u"
        { note := { WindowID := 7, LastKnownPos := (100, 100),
                    LastKnownSize := (200, 150) },
          pendingSave := false, saves := [] }).note.LastKnownPos = (100, 100) ∧
    (onConfigure
        { available := false, listRes := none, detailsOf := fun _ => none,
          localPos := (0, 0), localSize := (1, 1) }
        [] 0 "u"
        { note := { WindowID := 7, LastKnownPos := (100, 100),
                    LastKnownSize := (200, 150) },
          pendingSave := false, saves := [] }).note.LastKnownSize = (200, 150) :=
  geometry_failure_retention
    { available := false, listRes := none, detailsOf := fun _ => none,
      localPos := (0, 0), localSize := (1, 1) }
    [] 0 "u"
    { note := { WindowID := 7, LastKnownPos := (100, 100),
                LastKnownSize := (200, 150) },
      pendingSave := false, saves := [] }
    rfl rfl (Or.inl (by decide))

/-- C7: the window-calls error taxonomy: a ServiceUnknown/UnknownMethod
D-Bus error on `List` or `Details` marks the integration unavailable and
yields `(nil, nil)`; the per-window JavaScript error on `Details` yields
`(nil, nil)` without touching any state; once unavailable, both calls
short-circuit to `(nil, nil)` independent of the D-Bus oracle (no IPC);
the availability flag is never turned back on by either call (one-way
transition), so after a marking every subsequent call short-circuits. -/
theorem error_taxonomy :
    (∀ (s : WCState) (name : String), IsWindowCallsAvailable s = true →
      (name = serviceUnknownName ∨ name = unknownMethodName) →
      (ListWindows s (.dbusErr name)).1.windowCallsAvailable = false ∧
      (ListWindows s (.dbusErr name)).2 = .ok none ∧
      (GetWindowDetails s (.dbusErr name)).1.windowCallsAvailable = false ∧
      (GetWindowDetails s (.dbusErr name)).2 = .ok none) ∧
    (∀ s : WCState, (GetWindowDetails s (.dbusErr jsErrorName)).1 = s ∧
      (GetWindowDetails s (.dbusErr jsErrorName)).2 = .ok none) ∧
    (∀ s : WCState, IsWindowCallsAvailable s = false →
      (∀ c, ListWindows s c = (s, .ok none)) ∧
      (∀ c, GetWindowDetails s c = (s, .ok none))) ∧
    (∀ (s : WCState) (c : ListCallOutcome),
      ((ListWindows s c).1.windowCallsAvailable = true →
        s.windowCallsAvailable = true) ∧
      (ListWindows s c).1.isWaylandSession = s.isWaylandSession) ∧
    (∀ (s : WCState) (c : DetailsCallOutcome),
      ((GetWindowDetails s c).1.windowCallsAvailable = true →
        s.windowCallsAvailable = true) ∧
      (GetWindowDetails s c).1.isWaylandSession = s.isWaylandSession) ∧
    (∀ (s : WCState) (name : String), IsWindowCallsAvailable s = true →
      (name = serviceUnknownName ∨ name = unknownMethodName) →
      ∀ c, ListWindows (ListWindows s (.dbusErr name)).1 c =
        ((ListWindows s (.dbusErr name)).1, .ok none)) := by
  have hmark : ∀ (s : WCState) (name : String), IsWindowCallsAvailable s = true →
      (name = serviceUnknownName ∨ name = unknownMethodName) →
      ListWindows s (.dbusErr name) =
        ({ s with windowCallsAvailable := false, windowCallsChecked := true },
         .ok none) := by
    intro s name hav hname
    unfold ListWindows
    rw [if_neg (by rw [hav]; decide)]
    dsimp only
    have : (name == serviceUnknownName || name == unknownMethodName) = true := by
      rcases hname with h | h <;> simp [h]
    rw [this]
    rfl
  have hmarkD : ∀ (s : WCState) (name : String), IsWindowCallsAvailable s = true →
      (name = serviceUnknownName ∨ name = unknownMethodName) →
      GetWindowDetails s (.dbusErr name) =
        ({ s with windowCallsAvailable := false, windowCallsChecked := true },
         .ok none) := by
    intro s name hav hname
    unfold GetWindowDetails
    rw [if_neg (by rw [hav]; decide)]
    dsimp only
    have hjs : (name == jsErrorName) = false := by
      rcases hname with h | h <;> rw [h] <;> decide
    rw [hjs]
    have : (name == serviceUnknownName || name == unknownMethodName) = true := by
      rcases hname with h | h <;> simp [h]
    simp only [Bool.false_eq_true, if_false, this, if_true]
  refine ⟨?_, ?_, ?_, ?_, ?_, ?_⟩
  · intro s name hav hname
    rw [hmark s name hav hname, hmarkD s name hav hname]
    exact ⟨rfl, rfl, rfl, rfl⟩
  · intro s
    unfold GetWindowDetails
    by_cases hav : IsWindowCallsAvailable s = true
    · rw [if_neg (by rw [hav]; decide)]
      dsimp only
      rw [show (jsErrorName == jsErrorName) = true from by decide]
      exact ⟨rfl, rfl⟩
    · rw [if_pos (by simp [eq_false_of_ne_true hav])]
      exact ⟨rfl, rfl⟩
  · intro s hav
    constructor
    · intro c
      unfold ListWindows
      rw [if_pos (by simp [hav])]
    · intro c
      unfold GetWindowDetails
      rw [if_pos (by simp [hav])]
  · intro s c
    unfold ListWindows
    repeat' split
    all_goals
      exact ⟨fun h => by first | exact h | exact absurd h Bool.false_ne_true, rfl⟩
  · intro s c
    unfold GetWindowDetails
    repeat' split
    all_goals
      exact ⟨fun h => by first | exact h | exact absurd h Bool.false_ne_true, rfl⟩
  · intro s name hav hname c
    rw [hmark s name hav hname]
    unfold ListWindows
    rw [if_pos]
    rw [show IsWindowCallsAvailable
        { s with windowCallsAvailable := false, windowCallsChecked := true } = false
      from by unfold IsWindowCallsAvailable; exact Bool.and_false _]
    rfl

/-- C7 witness: a ServiceUnknown error on `List` in an available state
flips the availability flag off and the next call short-circuits. -/
theorem error_taxonomy_witness :
    (ListWindows ⟨true, true, true⟩ (.dbusErr serviceUnknownName)).1.windowCallsAvailable
        = false ∧
    (ListWindows (ListWindows ⟨true, true, true⟩
        (.dbusErr serviceUnknownName)).1 (.ok [])) =
      ((ListWindows ⟨true, true, true⟩ (.dbusErr serviceUnknownName)).1, .ok none) :=
  ⟨(error_taxonomy.1 ⟨true, true, true⟩ serviceUnknownName rfl (Or.inl rfl)).1,
   error_taxonomy.2.2.2.2.2 ⟨true, true, true⟩ serviceUnknownName rfl (Or.inl rfl) (.ok [])⟩

/-- C2: title-match determinism: the expected title is
"Sticky Notes - " followed by the first 8 characters of the UUID, which
is exactly the title `buildNote` sets on the window; when the candidate
list holds exactly one window with that (effective) title and no other
live note holds its handle, `assignWindowID` assigns exactly that
window's handle. -/
theorem title_match_determinism :
    (∀ uuid, buildNoteTitle uuid = assignExpectedTitle uuid) ∧
    (∀ uuid, assignExpectedTitle uuid =
      "Sticky Notes - " ++ String.mk (uuid.toList.take 8)) ∧
    (∀ (detailsOf : Nat → Option WindowDetails) (notes : List Note)
       (self : Nat) (uuid : String) (ws : List WindowInfo) (win : WindowInfo),
       win ∈ ws →
       effectiveTitle detailsOf win = assignExpectedTitle uuid →
       (∀ w' ∈ ws, w' ≠ win →
         effectiveTitle detailsOf w' ≠ assignExpectedTitle uuid) →
       assignedToOther notes self win.ID = false →
       assignWindowID detailsOf (some ws) notes self uuid 0 = win.ID) := by
  refine ⟨fun _ => rfl, fun _ => rfl, ?_⟩
  intro detailsOf notes self uuid ws win hmem htitle hothers hfree
  unfold assignWindowID
  rw [if_neg (by decide)]
  dsimp only
  have hne : ws.isEmpty = false := by
    cases ws
    · cases hmem
    · rfl
  rw [if_neg (by rw [hne]; exact Bool.false_ne_true)]
  rw [assignLoop_unique detailsOf notes self (assignExpectedTitle uuid) ws win
    hmem htitle hothers hfree]

/-- C2 witness: a two-candidate list where only window 5 carries note
"bbbbbbbb…"'s expected title; the matcher claims handle 5. -/
theorem title_match_determinism_witness :
    assignWindowID
      (fun n => if n == 5 then
          some { ID := 5, PID := 1, X := 0, Y := 0, Width := 200, Height := 150,
                 WMClass := "postnote", Title := "Sticky Notes - bbbbbbbb",
                 Maximized := 0, Focus := false }
        else
          some { ID := 9, PID := 1, X := 0, Y := 0, Width := 300, Height := 300,
                 WMClass := "postnote", Title := "Sticky Notes - cccccccc",
                 Maximized := 0, Focus := false })
      (some [{ ID := 9, PID := 1, X := 0, Y := 0, Width := 300, Height := 300,
               WMClass := "postnote", Title := "Sticky Notes - cccccccc" },
             { ID := 5, PID := 1, X := 0, Y := 0, Width := 200, Height := 150,
               WMClass := "postnote", Title := "Sticky Notes - bbbbbbbb" }])
      [{ UUID := "bbbbbbbb-0000", GUI := some ⟨0, (10, 10), (200, 150)⟩ }]
      0 "bbbbbbbb-0000" 0 = 5 := by
  have h := title_match_determinism.2.2
    (fun n => if n == 5 then
        some { ID := 5, PID := 1, X := 0, Y := 0, Width := 200, Height := 150,
               WMClass := "postnote", Title := "Sticky Notes - bbbbbbbb",
               Maximized := 0, Focus := false }
      else
        some { ID := 9, PID := 1, X := 0, Y := 0, Width := 300, Height := 300,
               WMClass := "postnote", Title := "Sticky Notes - cccccccc",
               Maximized := 0, Focus := false })
    [{ UUID := "bbbbbbbb-0000", GUI := some ⟨0, (10, 10), (200, 150)⟩ }]
    0 "bbbbbbbb-0000"
    [{ ID := 9, PID := 1, X := 0, Y := 0, Width := 300, Height := 300,
       WMClass := "postnote", Title := "Sticky Notes - cccccccc" },
     { ID := 5, PID := 1, X := 0, Y := 0, Width := 200, Height := 150,
       WMClass := "postnote", Title := "Sticky Notes - bbbbbbbb" }]
    { ID := 5, PID := 1, X := 0, Y := 0, Width := 200, Height := 150,
      WMClass := "postnote", Title := "Sticky Notes - bbbbbbbb" }
    (by decide) (by decide) (by decide) (by decide)
  exact h

/-- C4: sentinel safety of the handle lifecycle: a freshly built note
window carries handle 0; `Hide` resets the handle to 0; a successful
claim by the title matcher never yields 0 (given the externally reported
handles are non-zero, as the shell guarantees). -/
theorem sentinel_safety :
    (∀ (notes : List Note) (uuid : String) (pos size : Int × Int),
      (step notes (Event.create uuid pos size))[notes.length]? =
        some { UUID := uuid, GUI := some ⟨0, pos, size⟩ }) ∧
    (∀ (notes : List Note) (i : Nat) (n : Note) (g : StickyNote),
      notes[i]? = some n → n.GUI = some g →
      (step notes (Event.hide i))[i]? =
        some { n with GUI := some { g with WindowID := 0 } }) ∧
    (∀ (detailsOf : Nat → Option WindowDetails) (notes : List Note)
       (self : Nat) (expected : String) (ws : List WindowInfo) (wid : Nat),
      (∀ win ∈ ws, win.ID ≠ 0) →
      assignLoop detailsOf notes self expected ws = some wid → wid ≠ 0) := by
  refine ⟨?_, ?_, ?_⟩
  · intro notes uuid pos size
    simp only [step]
    rw [List.getElem?_append_right (Nat.le_refl _)]
    simp
  · intro notes i n g hn hg
    have hi : i < notes.length := by
      by_contra hlen
      push_neg at hlen
      rw [List.getElem?_eq_none hlen] at hn
      cases hn
    simp only [step, stepAssign]
    rw [hn]
    dsimp only
    rw [hg]
    dsimp only
    rw [List.getElem?_set_self hi]
  · intro detailsOf notes self expected ws wid hids hloop
    obtain ⟨-, win, hmem, hid⟩ := assignLoop_some_unclaimed hloop
    rw [← hid]
    exact hids win hmem

/-- C4 witness: fresh build and hide yield handle 0; a successful claim
of handle 5 from a non-zero candidate list is non-zero. -/
theorem sentinel_safety_witness :
    (step [] (Event.create "bbbbbbbb-0000" (10, 10) (200, 150)))[0]? =
      some { UUID := "bbbbbbbb-0000", GUI := some ⟨0, (10, 10), (200, 150)⟩ } ∧
    (step [{ UUID := "bbbbbbbb-0000", GUI := some ⟨5, (10, 10), (200, 150)⟩ }]
        (Event.hide 0))[0]? =
      some { UUID := "bbbbbbbb-0000", GUI := some ⟨0, (10, 10), (200, 150)⟩ } ∧
    ∀ wid, assignLoop
        (fun _ => some { ID := 5, PID := 1, X := 0, Y := 0, Width := 200,
                         Height := 150, WMClass := "postnote",
                         Title := "Sticky Notes - bbbbbbbb",
                         Maximized := 0, Focus := false })
        [] 0 "Sticky Notes - bbbbbbbb"
        [{ ID := 5, PID := 1, X := 0, Y := 0, Width := 200, Height := 150,
           WMClass := "postnote", Title := "Sticky Notes - bbbbbbbb" }] =
          some wid → wid ≠ 0 := by
  refine ⟨?_, ?_, ?_⟩
  · exact sentinel_safety.1 [] "bbbbbbbb-0000" (10, 10) (200, 150)
  · exact sentinel_safety.2.1
      [{ UUID := "bbbbbbbb-0000", GUI := some ⟨5, (10, 10), (200, 150)⟩ }]
      0 _ _ rfl rfl
  · intro wid
    exact sentinel_safety.2.2
      (fun _ => some { ID := 5, PID := 1, X := 0, Y := 0, Width := 200,
                       Height := 150, WMClass := "postnote",
                       Title := "Sticky Notes - bbbbbbbb",
                       Maximized := 0, Focus := false })
      [] 0 "Sticky Notes - bbbbbbbb"
      [{ ID := 5, PID := 1, X := 0, Y := 0, Width := 200, Height := 150,
         WMClass := "postnote", Title := "Sticky Notes - bbbbbbbb" }]
      wid (by decide)

/-- C5: debounce collapse: a burst of configure notifications (no timer
expiry in between) performs no write while the burst lasts, always
leaves exactly one save pending, and the eventual timer expiry performs
exactly one write carrying the geometry recorded by the last
notification of the burst. -/
theorem debounce_collapse (notes : List Note) (self : Nat) (uuid : String)
    (s : ConfState) (es : List ConfEnv) (hne : es ≠ []) :
    (runConfigures notes self uuid s es).saves = s.saves ∧
    (runConfigures notes self uuid s es).pendingSave = true ∧
    (fireSave (runConfigures notes self uuid s es)).saves =
      s.saves ++ [((runConfigures notes self uuid s es).note.LastKnownPos,
                   (runConfigures notes self uuid s es).note.LastKnownSize)] ∧
    (fireSave (runConfigures notes self uuid s es)).pendingSave = false := by
  have h1 := runConfigures_saves notes self uuid s es
  have h2 := runConfigures_pendingSave notes self uuid s es hne
  refine ⟨h1, h2, ?_, ?_⟩
  · unfold fireSave
    rw [if_pos h2]
    rw [h1]
  · unfold fireSave
    rw [if_pos h2]

/-- C5 witness: two configure notifications then one expiry: exactly one
write, with the second notification's geometry. -/
theorem debounce_collapse_witness :
    (runConfigures [] 0 "u"
      { note := { WindowID := 0, LastKnownPos := (0, 0), LastKnownSize := (0, 0) },
        pendingSave := false, saves := [] }
      [{ available := false, listRes := none, detailsOf := fun _ => none,
         localPos := (20, 30), localSize := (200, 150) },
       { available := false, listRes := none, detailsOf := fun _ => none,
         localPos := (25, 35), localSize := (210, 160) }]).saves = [] ∧
    (runConfigures [] 0 "u"
      { note := { WindowID := 0, LastKnownPos := (0, 0), LastKnownSize := (0, 0) },
        pendingSave := false, saves := [] }
      [{ available := false, listRes := none, detailsOf := fun _ => none,
         localPos := (20, 30), localSize := (200, 150) },
       { available := false, listRes := none, detailsOf := fun _ => none,
         localPos := (25, 35), localSize := (210, 160) }]).pendingSave = true ∧
    (fireSave (runConfigures [] 0 "u"
      { note := { WindowID := 0, LastKnownPos := (0, 0), LastKnownSize := (0, 0) },
        pendingSave := false, saves := [] }
      [{ available := false, listRes := none, detailsOf := fun _ => none,
         localPos := (20, 30), localSize := (200, 150) },
       { available := false, listRes := none, detailsOf := fun _ => none,
         localPos := (25, 35), localSize := (210, 160) }])).saves =
      [] ++ [((runConfigures [] 0 "u"
        { note := { WindowID := 0, LastKnownPos := (0, 0), LastKnownSize := (0, 0) },
          pendingSave := false, saves := [] }
        [{ available := false, listRes := none, detailsOf := fun _ => none,
           localPos := (20, 30), localSize := (200, 150) },
         { available := false, listRes := none, detailsOf := fun _ => none,
           localPos := (25, 35), localSize := (210, 160) }]).note.LastKnownPos,
        (runConfigures [] 0 "u"
        { note := { WindowID := 0, LastKnownPos := (0, 0), LastKnownSize := (0, 0) },
          pendingSave := false, saves := [] }
        [{ available := false, listRes := none, detailsOf := fun _ => none,
           localPos := (20, 30), localSize := (200, 150) },
         { available := false, listRes := none, detailsOf := fun _ => none,
           localPos := (25, 35), localSize := (210, 160) }]).note.LastKnownSize)] ∧
    (fireSave (runConfigures [] 0 "u"
      { note := { WindowID := 0, LastKnownPos := (0, 0), LastKnownSize := (0, 0) },
        pendingSave := false, saves := [] }
      [{ available := false, listRes := none, detailsOf := fun _ => none,
         localPos := (20, 30), localSize := (200, 150) },
       { available := false, listRes := none, detailsOf := fun _ => none,
         localPos := (25, 35), localSize := (210, 160) }])).pendingSave = false :=
  debounce_collapse [] 0 "u"
    { note := { WindowID := 0, LastKnownPos := (0, 0), LastKnownSize := (0, 0) },
      pendingSave := false, saves := [] }
    [{ available := false, listRes := none, detailsOf := fun _ => none,
       localPos := (20, 30), localSize := (200, 150) },
     { available := false, listRes := none, detailsOf := fun _ => none,
       localPos := (25, 35), localSize := (210, 160) }]
    (List.cons_ne_nil _ _)

/-- C1: no double claim and injectivity: a matching attempt for a note
never assigns a (non-zero) handle already held by another live note —
candidates claimed elsewhere are skipped even when the title matches —
and consequently in every reachable state of the note-set machine no two
live notes hold the same non-zero handle. -/
theorem no_double_claim_injectivity :
    (∀ (detailsOf : Nat → Option WindowDetails)
       (listRes : Option (List WindowInfo)) (notes : List Note)
       (self : Nat) (uuid : String) (H : Nat),
       H ≠ 0 → assignedToOther notes self H = true →
       assignWindowID detailsOf listRes notes self uuid 0 ≠ H) ∧
    (∀ s, Reachable s → InjectiveHandles s) := by
  constructor
  · intro detailsOf listRes notes self uuid H hH hcl
    rcases assignWindowID_eq_or_unclaimed detailsOf listRes notes self uuid 0 with
      heq | hfree
    · rw [heq]
      exact fun hc => hH hc.symm
    · intro hc
      rw [hc, hcl] at hfree
      cases hfree
  · exact reachable_injective

/-- C1 witness: handle 5 is held by note A, so note B's matching attempt
returns something other than 5 even though window 5 carries B's expected
title; and a state reached by creating a note is injective. -/
theorem no_double_claim_injectivity_witness :
    assignWindowID
      (fun _ => some { ID := 5, PID := 1, X := 0, Y := 0, Width := 200,
                       Height := 150, WMClass := "postnote",
                       Title := "Sticky Notes - bbbbbbbb",
                       Maximized := 0, Focus := false })
      (some [{ ID := 5, PID := 1, X := 0, Y := 0, Width := 200, Height := 150,
               WMClass := "postnote", Title := "Sticky Notes - bbbbbbbb" }])
      [{ UUID := "aaaaaaaa-0000", GUI := some ⟨5, (10, 10), (200, 150)⟩ },
       { UUID := "bbbbbbbb-0000", GUI := some ⟨0, (40, 40), (200, 150)⟩ }]
      1 "bbbbbbbb-0000" 0 ≠ 5 ∧
    InjectiveHandles (step [] (Event.create "aaaaaaaa-0000" (10, 10) (200, 150))) :=
  ⟨no_double_claim_injectivity.1
      (fun _ => some { ID := 5, PID := 1, X := 0, Y := 0, Width := 200,
                       Height := 150, WMClass := "postnote",
                       Title := "Sticky Notes - bbbbbbbb",
                       Maximized := 0, Focus := false })
      (some [{ ID := 5, PID := 1, X := 0, Y := 0, Width := 200, Height := 150,
               WMClass := "postnote", Title := "Sticky Notes - bbbbbbbb" }])
      [{ UUID := "aaaaaaaa-0000", GUI := some ⟨5, (10, 10), (200, 150)⟩ },
       { UUID := "bbbbbbbb-0000", GUI := some ⟨0, (40, 40), (200, 150)⟩ }]
      1 "bbbbbbbb-0000" 5 (by decide) (by decide),
   no_double_claim_injectivity.2 _ (Reachable.next _ _ Reachable.init)⟩

/-- C3: size-fallback matching (scored matcher): whenever some unclaimed
candidate with resolvable geometry scores above zero, the matcher
assigns an unclaimed candidate whose score is maximal among all
unclaimed resolvable candidates; a size match requires both dimensions
within the 10-pixel tolerance and dominates: any size-matching candidate
strictly outscores any size-mismatching one (so position alone cannot
override a size mismatch); and a positive score requires a size match or
a known expected position within the 50-pixel tolerance. -/
theorem size_fallback_matching :
    (∀ (detailsOf : Nat → Option WindowDetails) (notes : List Note)
       (self : Nat) (w h ex ey : Int) (ws : List WindowInfo),
      (∀ win ∈ ws, win.ID ≠ 0) →
      (∃ win ∈ ws, assignedToOther notes self win.ID = false ∧
        ∃ d, candidateDetails detailsOf win = some d ∧
          0 < matchScore d w h ex ey) →
      ∃ win ∈ ws, assignedToOther notes self win.ID = false ∧
        ∃ d, candidateDetails detailsOf win = some d ∧
          assignWindowIDScored detailsOf (some ws) notes self w h ex ey 0 = win.ID ∧
          ∀ win' ∈ ws, assignedToOther notes self win'.ID = false →
            ∀ d', candidateDetails detailsOf win' = some d' →
              matchScore d' w h ex ey ≤ matchScore d w h ex ey) ∧
    (∀ (d d' : WindowDetails) (w h ex ey : Int),
      sizeMatches d w h = true → sizeMatches d' w h = false →
      matchScore d' w h ex ey < matchScore d w h ex ey) ∧
    (∀ (d : WindowDetails) (w h ex ey : Int), 0 < matchScore d w h ex ey →
      sizeMatches d w h = true ∨
        ((ex != 0 || ey != 0) &&
          (absInt (d.X - ex) < 50 && absInt (d.Y - ey) < 50)) = true) := by
  refine ⟨?_, ?_, ?_⟩
  · intro detailsOf notes self w h ex ey ws hids hex
    obtain ⟨win0, hmem0, hfree0, d0, hd0, hpos0⟩ := hex
    have hne : ws.isEmpty = false := by
      cases ws
      · cases hmem0
      · rfl
    have hge0 := bestMatchLoop_snd_ge_candidate detailsOf notes self w h ex ey
      ws (0, 0) win0 hmem0 hfree0 d0 hd0
    rcases bestMatchLoop_cases detailsOf notes self w h ex ey ws (0, 0) with
      hc | ⟨win, hmem, hfree, d, hd, heq⟩
    · exfalso
      rw [hc] at hge0
      dsimp only at hge0
      omega
    · refine ⟨win, hmem, hfree, d, hd, ?_, ?_⟩
      · unfold assignWindowIDScored
        rw [if_neg (by decide)]
        dsimp only
        rw [if_neg (by rw [hne]; exact Bool.false_ne_true)]
        rw [heq]
        dsimp only
        rw [if_pos]
        have : win.ID ≠ 0 := hids win hmem
        simpa using this
      · intro win' hmem' hfree' d' hd'
        have := bestMatchLoop_snd_ge_candidate detailsOf notes self w h ex ey
          ws (0, 0) win' hmem' hfree' d' hd'
        rw [heq] at this
        exact this
  · intro d d' w h ex ey hd hd'
    unfold matchScore
    unfold sizeMatches at hd hd'
    rw [hd, hd']
    by_cases h1 : ((ex != 0 || ey != 0) &&
        (absInt (d.X - ex) < 50 && absInt (d.Y - ey) < 50)) = true <;>
      by_cases h2 : ((ex != 0 || ey != 0) &&
          (absInt (d'.X - ex) < 50 && absInt (d'.Y - ey) < 50)) = true <;>
        simp [h1, h2, eq_false_of_ne_true]
  · intro d w h ex ey hpos
    unfold matchScore at hpos
    by_cases h1 : sizeMatches d w h = true
    · exact Or.inl h1
    · right
      unfold sizeMatches at h1
      rw [eq_false_of_ne_true h1] at hpos
      by_cases h2 : ((ex != 0 || ey != 0) &&
          (absInt (d.X - ex) < 50 && absInt (d.Y - ey) < 50)) = true
      · exact h2
      · rw [eq_false_of_ne_true h2] at hpos
        simp at hpos

/-- C3 witness: among two unclaimed candidates, only window 5's size is
within 10 pixels of the note's 200x150 window; the scored matcher claims
window 5, whose score dominates. -/
theorem size_fallback_matching_witness :
    (∃ win ∈ [{ ID := 9, PID := 1, X := 500, Y := 500, Width := 400, Height := 400,
                WMClass := "postnote", Title := "" },
              { ID := 5, PID := 1, X := 12, Y := 12, Width := 204, Height := 147,
                WMClass := "postnote", Title := "" }],
      assignedToOther [] 0 win.ID = false ∧
        ∃ d, candidateDetails (fun _ => none) win = some d ∧
          assignWindowIDScored (fun _ => none)
            (some [{ ID := 9, PID := 1, X := 500, Y := 500, Width := 400,
                     Height := 400, WMClass := "postnote", Title := "" },
                   { ID := 5, PID := 1, X := 12, Y := 12, Width := 204,
                     Height := 147, WMClass := "postnote", Title := "" }])
            [] 0 200 150 10 10 0 = win.ID ∧
          ∀ win' ∈ [{ ID := 9, PID := 1, X := 500, Y := 500, Width := 400,
                      Height := 400, WMClass := "postnote", Title := "" },
                    { ID := 5, PID := 1, X := 12, Y := 12, Width := 204,
                      Height := 147, WMClass := "postnote", Title := "" }],
            assignedToOther [] 0 win'.ID = false →
            ∀ d', candidateDetails (fun _ => none) win' = some d' →
              matchScore d' 200 150 10 10 ≤ matchScore d 200 150 10 10) ∧
    matchScore { ID := 9, PID := 1, X := 10, Y := 10, Width := 400, Height := 400,
                 WMClass := "postnote", Title := "", Maximized := 0, Focus := false }
        200 150 10 10 <
      matchScore { ID := 5, PID := 1, X := 900, Y := 900, Width := 204, Height := 147,
                   WMClass := "postnote", Title := "", Maximized := 0, Focus := false }
        200 150 10 10 :=
  ⟨size_fallback_matching.1 (fun _ => none) [] 0 200 150 10 10
      [{ ID := 9, PID := 1, X := 500, Y := 500, Width := 400, Height := 400,
         WMClass := "postnote", Title := "" },
       { ID := 5, PID := 1, X := 12, Y := 12, Width := 204, Height := 147,
         WMClass := "postnote", Title := "" }]
      (by decide)
      ⟨{ ID := 5, PID := 1, X := 12, Y := 12, Width := 204, Height := 147,
         WMClass := "postnote", Title := "" }, by decide, by decide,
        { ID := 5, PID := 1, X := 12, Y := 12, Width := 204, Height := 147,
          WMClass := "postnote", Title := "", Maximized := 0, Focus := false },
        by decide, by decide⟩,
   size_fallback_matching.2.1
     { ID := 5, PID := 1, X := 900, Y := 900, Width := 204, Height := 147,
       WMClass := "postnote", Title := "", Maximized := 0, Focus := false }
     { ID := 9, PID := 1, X := 10, Y := 10, Width := 400, Height := 400,
       WMClass := "postnote", Title := "", Maximized := 0, Focus := false }
     200 150 10 10 (by decide) (by decide)⟩

theorem fireMatchTimer_windowID (env : BuildTimerEnv) (notes : List Note)
    (self : Nat) (uuid : String) (rp : Int × Int) (s : SchedState)
    (hp : s.pendingMatchTimer = true) :
    (fireMatchTimer env notes self uuid rp s).windowID =
      (if s.windowID == 0 then
        match env.listRes with
        | none => 0
        | some ws =>
          match buildShowLoop env.detailsOf notes self
              (assignExpectedTitle uuid) ws with
          | some w => w
          | none => 0
       else s.windowID) := by
  unfold fireMatchTimer
  rw [hp]
  rw [if_neg (by decide)]
  dsimp only
  repeat' split
  all_goals rfl

/-- C8 counterexample: hiding a note's window does not cancel the
pending 300ms matching/move timer, and when that timer fires on the
hidden window it still performs toolkit operations (opacity restore and
a local move) rather than being a no-op — contradicting the claim that
every still-pending timer callback is cancelled or no-ops after hide. -/
theorem cancellation_counterexample :
    (schedHide { windowID := 0, winHidden := false, winDestroyed := false,
                 pendingMatchTimer := true, pendingSaveTimer := true,
                 actions := [] }).pendingMatchTimer = true ∧
    (schedHide { windowID := 0, winHidden := false, winDestroyed := false,
                 pendingMatchTimer := true, pendingSaveTimer := true,
                 actions := [] }).winHidden = true ∧
    (fireMatchTimer
        { available := true, listRes := some [], detailsOf := fun _ => none,
          moveOk := true }
        [] 0 "aabbccdd" (10, 10)
        (schedHide { windowID := 0, winHidden := false, winDestroyed := false,
                     pendingMatchTimer := true, pendingSaveTimer := true,
                     actions := [] })).actions =
      [GuiAction.gtkHide, GuiAction.setOpacityVisible, GuiAction.gtkMove 10 10] ∧
    (fireMatchTimer
        { available := true, listRes := some [], detailsOf := fun _ => none,
          moveOk := true }
        [] 0 "aabbccdd" (10, 10)
        (schedHide { windowID := 0, winHidden := false, winDestroyed := false,
                     pendingMatchTimer := true, pendingSaveTimer := true,
                     actions := [] })).actions ≠
      (schedHide { windowID := 0, winHidden := false, winDestroyed := false,
                   pendingMatchTimer := true, pendingSaveTimer := true,
                   actions := [] }).actions := by
  refine ⟨rfl, rfl, by decide, by decide⟩

/-- C8 amended: `Hide` cancels only the pending debounced-save timer
(resetting the handle) and `onDelete` likewise cancels only the save
timer; the delayed matching/move callbacks are not cancelled and do not
re-check window validity at fire time — they still run and issue
move/opacity operations on the stale window.  What is preserved: a timer
that is no longer pending is a no-op when fired, and a firing matching
callback never assigns a handle held by another live note. -/
theorem cancellation_discipline :
    (∀ s, (schedHide s).pendingSaveTimer = false ∧
          (schedHide s).windowID = 0 ∧
          (schedHide s).pendingMatchTimer = s.pendingMatchTimer) ∧
    (∀ s, (schedDelete s).pendingSaveTimer = false ∧
          (schedDelete s).pendingMatchTimer = s.pendingMatchTimer) ∧
    (∀ env notes self uuid rp s, s.pendingMatchTimer = false →
      fireMatchTimer env notes self uuid rp s = s) ∧
    (∀ env notes self uuid rp s, s.pendingMatchTimer = true →
      (fireMatchTimer env notes self uuid rp s).windowID = s.windowID ∨
      assignedToOther notes self
        (fireMatchTimer env notes self uuid rp s).windowID = false) := by
  refine ⟨fun s => ⟨rfl, rfl, rfl⟩, fun s => ⟨rfl, rfl⟩, ?_, ?_⟩
  · intro env notes self uuid rp s hp
    unfold fireMatchTimer
    rw [hp]
    rw [if_pos (by decide)]
  · intro env notes self uuid rp s hp
    rw [fireMatchTimer_windowID env notes self uuid rp s hp]
    by_cases h0 : (s.windowID == 0) = true
    · rw [if_pos h0]
      cases env.listRes with
      | none =>
        left
        dsimp only
        exact (Nat.eq_of_beq_eq_true (by simpa using h0)).symm
      | some ws =>
        dsimp only
        cases hL : buildShowLoop env.detailsOf notes self
            (assignExpectedTitle uuid) ws with
        | none =>
          left
          exact (Nat.eq_of_beq_eq_true (by simpa using h0)).symm
        | some w =>
          right
          exact (buildShowLoop_some_unclaimed hL).1
    · rw [if_neg h0]
      left
      rfl

/-- C8 witness for the amended claim: concrete hide/fire runs. -/
theorem cancellation_discipline_witness :
    (schedHide { windowID := 5, winHidden := false, winDestroyed := false,
                 pendingMatchTimer := true, pendingSaveTimer := true,
                 actions := [] }).pendingSaveTimer = false ∧
    fireMatchTimer
        { available := true, listRes := some [], detailsOf := fun _ => none,
          moveOk := true }
        [] 0 "aabbccdd" (10, 10)
        { windowID := 0, winHidden := true, winDestroyed := false,
          pendingMatchTimer := false, pendingSaveTimer := false,
          actions := [GuiAction.gtkHide] } =
      { windowID := 0, winHidden := true, winDestroyed := false,
        pendingMatchTimer := false, pendingSaveTimer := false,
        actions := [GuiAction.gtkHide] } ∧
    ((fireMatchTimer
        { available := true, listRes := some [], detailsOf := fun _ => none,
          moveOk := true }
        [] 0 "aabbccdd" (10, 10)
        { windowID := 0, winHidden := true, winDestroyed := false,
          pendingMatchTimer := true, pendingSaveTimer := false,
          actions := [GuiAction.gtkHide] }).windowID =
      ({ windowID := 0, winHidden := true, winDestroyed := false,
         pendingMatchTimer := true, pendingSaveTimer := false,
         actions := [GuiAction.gtkHide] } : SchedState).windowID ∨
     assignedToOther [] 0
       (fireMatchTimer
        { available := true, listRes := some [], detailsOf := fun _ => none,
          moveOk := true }
        [] 0 "aabbccdd" (10, 10)
        { windowID := 0, winHidden := true, winDestroyed := false,
          pendingMatchTimer := true, pendingSaveTimer := false,
          actions := [GuiAction.gtkHide] }).windowID = false) :=
  ⟨(cancellation_discipline.1
      { windowID := 5, winHidden := false, winDestroyed := false,
        pendingMatchTimer := true, pendingSaveTimer := true,
        actions := [] }).1,
   cancellation_discipline.2.2.1
      { available := true, listRes := some [], detailsOf := fun _ => none,
        moveOk := true }
      [] 0 "aabbccdd" (10, 10)
      { windowID := 0, winHidden := true, winDestroyed := false,
        pendingMatchTimer := false, pendingSaveTimer := false,
        actions := [GuiAction.gtkHide] } rfl,
   cancellation_discipline.2.2.2
      { available := true, listRes := some [], detailsOf := fun _ => none,
        moveOk := true }
      [] 0 "aabbccdd" (10, 10)
      { windowID := 0, winHidden := true, winDestroyed := false,
        pendingMatchTimer := true, pendingSaveTimer := false,
        actions := [GuiAction.gtkHide] } rfl⟩

end Postnote
